import Mathlib

/-!
Shallow embedding of the students web service in `HW12/main.py`: the
password-hashing utilities, the authentication/session manager, the student
repository, the cache layer and the HTTP endpoint handlers, together with
theorems settling the specification claims about them.

Python strings are modelled as `List Char`; timestamps (`datetime.utcnow()`)
as natural numbers counting seconds, so `timedelta(hours=24)` is `86400`.
Randomness (salts, tokens) enters the Python code through `secrets`; in the
embedding every random draw is an explicit parameter of the operation that
performs it.  The SHA-256 digest from `hashlib` is external to the repository
and is modelled as an arbitrary function `digest : Str → Nat` standing for the
256-bit digest integer; `hexdigest digest` renders it in lowercase hex exactly
as `hashlib.sha256(...).hexdigest()` renders the real digest.
-/

namespace HW12

/-- Python strings, modelled as lists of characters. -/
abbrev Str := List Char

/-- Convenience coercion from Lean string literals into the model. -/
def str (s : String) : Str := s.data

/-- Python `s.split(sep)` for a single-character separator: splits at every
occurrence of `sep`; always returns at least one group. -/
def splitOnChar (sep : Char) : Str → List Str
  | [] => [[]]
  | c :: rest =>
    match splitOnChar sep rest with
    | [] => [[]]
    | g :: gs => if c = sep then [] :: g :: gs else (c :: g) :: gs

/-- Hex digit characters, as `"%x"` formatting produces them. -/
def hexChar (n : Nat) : Char := (str "0123456789abcdef").getD n 'x'

/-- Lowercase hex rendering of a natural number, most significant digit
first: the accumulator-passing worker, structurally recursive on a fuel that
bounds the number of digits (any `fuel ≥ n` computes all digits of `n`). -/
def toHexAux : Nat → Nat → Str → Str
  | _, 0, acc => acc
  | 0, _ + 1, acc => acc
  | fuel + 1, n + 1, acc =>
    toHexAux fuel ((n + 1) / 16) (hexChar ((n + 1) % 16) :: acc)

/-- Lowercase hex rendering of a natural number (`"0"` for zero). -/
def toHex (n : Nat) : Str := if n = 0 then ['0'] else toHexAux n n []

/-- Model of `secrets.token_hex(nbytes)`: the hex encoding of `nbytes` random
bytes; the randomness is the explicit `seed` argument. -/
def token_hex (nbytes seed : Nat) : Str := toHex (seed % 2 ^ (8 * nbytes))

/-- Model of `hashlib.sha256(s).hexdigest()`: the abstract digest integer
rendered in lowercase hex. -/
def hexdigest (digest : Str → Nat) (s : Str) : Str := toHex (digest s)

/-- `AuthManager.hash_password`: `salt = secrets.token_hex(16)` (its random
seed is the explicit `seed` argument), then `sha256(password + salt)` in hex,
returned as `salt:hash`. -/
def hash_password (digest : Str → Nat) (seed : Nat) (password : Str) : Str :=
  let salt := token_hex 16 seed
  let password_hash := hexdigest digest (password ++ salt)
  salt ++ ':' :: password_hash

/-- `AuthManager.verify_password`: `salt, hash_value = password_hash.split(':')`
(which raises unless the split yields exactly two parts — the bare `except`
turns any such failure into `False`), then recompute and compare. -/
def verify_password (digest : Str → Nat) (password password_hash : Str) :
    Bool :=
  match splitOnChar ':' password_hash with
  | [salt, hash_value] => hexdigest digest (password ++ salt) == hash_value
  | _ => false

/-- A row of the `students` table. -/
structure Student where
  id : Nat
  last_name : Str
  first_name : Str
  faculty : Str
  course : Str
  score : Int
deriving DecidableEq

/-- A row of the `users` table. -/
structure User where
  id : Nat
  username : Str
  email : Str
  password_hash : Str
  is_read_only : Bool
  is_active : Bool
  created_at : Nat
deriving DecidableEq

/-- A row of the `sessions` table. -/
structure Session where
  id : Nat
  user_id : Nat
  token : Str
  refresh_token : Str
  created_at : Nat
  expires_at : Nat
  is_active : Bool
deriving DecidableEq

/-- The persistent store (the SQLite database): the three tables, each in
insertion order, as the unordered queries of the source return them. -/
structure DB where
  students : List Student
  users : List User
  sessions : List Session
deriving DecidableEq

/-- The uniqueness constraints the schema declares (`primary_key` for ids,
`unique=True` for usernames, emails, access tokens and refresh tokens). -/
def WF (db : DB) : Prop :=
  (db.students.map Student.id).Nodup ∧
  (db.users.map User.id).Nodup ∧
  (db.users.map User.username).Nodup ∧
  (db.users.map User.email).Nodup ∧
  (db.sessions.map Session.id).Nodup ∧
  (db.sessions.map Session.token).Nodup ∧
  (db.sessions.map Session.refresh_token).Nodup

instance (db : DB) : Decidable (WF db) := by unfold WF; infer_instance

/-- SQLite rowid assignment for an insert: one more than the largest id in
the table. -/
def next_id (ids : List Nat) : Nat := ids.foldr max 0 + 1

/-- The dictionary `register_user` returns (the new row without its
password hash). -/
structure UserPublic where
  id : Nat
  username : Str
  email : Str
  is_read_only : Bool
  is_active : Bool
  created_at : Nat
deriving DecidableEq

/-- The dictionary `login_user` and `refresh_token_user` return. -/
structure TokenPair where
  access_token : Str
  refresh_token : Str
  user_id : Nat
  username : Str
  is_read_only : Bool
deriving DecidableEq

/-- The authenticated-user context `verify_token` returns (the `AuthUser`
pydantic model). -/
structure AuthUser where
  user_id : Nat
  username : Str
  is_read_only : Bool
  is_active : Bool
deriving DecidableEq

/-- `AuthManager.register_user`: one OR'd existence query over username and
email; on a hit returns `None` with the store untouched, otherwise inserts
the new user (with hashed password, `is_active=True`) and returns its public
fields.  `seed` is the salt randomness of the inner `hash_password` call and
`now` the insertion timestamp. -/
def register_user (digest : Str → Nat) (db : DB) (now seed : Nat)
    (username email password : Str) (is_read_only : Bool) :
    Option UserPublic × DB :=
  match db.users.find? (fun u => u.username == username || u.email == email)
    with
  | some _ => (none, db)
  | none =>
    let user : User :=
      { id := next_id (db.users.map User.id)
        username := username
        email := email
        password_hash := hash_password digest seed password
        is_read_only := is_read_only
        is_active := true
        created_at := now }
    (some { id := user.id, username := user.username, email := user.email,
            is_read_only := user.is_read_only, is_active := user.is_active,
            created_at := user.created_at },
     { db with users := db.users ++ [user] })

/-- `AuthManager.login_user`: finds the user by username; absent or inactive
user, or password mismatch, all return `None` with the store untouched; on
success inserts a session with the two freshly drawn tokens (explicit
`access_token`/`refresh_token` arguments) and `expires_at = now + 24h`. -/
def login_user (digest : Str → Nat) (db : DB) (now : Nat)
    (username password : Str) (access_token refresh_token : Str) :
    Option TokenPair × DB :=
  match db.users.find? (fun u => u.username == username) with
  | none => (none, db)
  | some user =>
    if !user.is_active then (none, db)
    else if !verify_password digest password user.password_hash then
      (none, db)
    else
      let db_session : Session :=
        { id := next_id (db.sessions.map Session.id)
          user_id := user.id
          token := access_token
          refresh_token := refresh_token
          created_at := now
          expires_at := now + 86400
          is_active := true }
      (some { access_token := access_token, refresh_token := refresh_token,
              user_id := user.id, username := user.username,
              is_read_only := user.is_read_only },
       { db with sessions := db.sessions ++ [db_session] })

/-- `AuthManager.verify_token`: finds the session by token with
`is_active == True`; rejects when `expires_at < now`; requires an existing,
active owning user; returns that user's context. -/
def verify_token (db : DB) (now : Nat) (token : Str) : Option AuthUser :=
  match db.sessions.find? (fun s => s.token == token && s.is_active) with
  | none => none
  | some db_session =>
    if db_session.expires_at < now then none
    else
      match db.users.find? (fun u => u.id == db_session.user_id) with
      | none => none
      | some user =>
        if !user.is_active then none
        else some { user_id := user.id, username := user.username,
                    is_read_only := user.is_read_only,
                    is_active := user.is_active }

/-- `AuthManager.refresh_token_user`: finds the session by refresh token with
`is_active == True` (no expiry check), requires an existing active owning
user, then overwrites the same session row's token, refresh token and expiry
(`now + 24h`) in place.  The freshly drawn replacement tokens are the
explicit `new_access`/`new_refresh` arguments. -/
def refresh_token_user (db : DB) (now : Nat) (refresh_token : Str)
    (new_access new_refresh : Str) : Option TokenPair × DB :=
  match db.sessions.find?
      (fun s => s.refresh_token == refresh_token && s.is_active) with
  | none => (none, db)
  | some db_session =>
    match db.users.find? (fun u => u.id == db_session.user_id) with
    | none => (none, db)
    | some user =>
      if !user.is_active then (none, db)
      else
        (some { access_token := new_access, refresh_token := new_refresh,
                user_id := user.id, username := user.username,
                is_read_only := user.is_read_only },
         { db with sessions := db.sessions.map (fun s =>
             if s.id = db_session.id then
               { s with token := new_access, refresh_token := new_refresh,
                        expires_at := now + 86400 }
             else s) })

/-- `AuthManager.logout_user`: finds the session by token (active or not) and
soft-deletes it (`is_active := False`); `False` when no such session. -/
def logout_user (db : DB) (token : Str) : Bool × DB :=
  match db.sessions.find? (fun s => s.token == token) with
  | none => (false, db)
  | some db_session =>
    (true,
     { db with sessions := db.sessions.map (fun s =>
         if s.id = db_session.id then { s with is_active := false } else s) })

/-- The `StudentCreate` request body. -/
structure StudentCreate where
  last_name : Str
  first_name : Str
  faculty : Str
  course : Str
  score : Int
deriving DecidableEq

/-- The `StudentUpdate` request body: every field optional, `None` by
default. -/
structure StudentUpdate where
  last_name : Option Str := none
  first_name : Option Str := none
  faculty : Option Str := none
  course : Option Str := none
  score : Option Int := none
deriving DecidableEq

/-- `StudentManager.get_all_students`. -/
def get_all_students (db : DB) : List Student := db.students

/-- `StudentManager.get_student_by_id`. -/
def get_student_by_id (db : DB) (student_id : Nat) : Option Student :=
  db.students.find? (fun s => s.id == student_id)

/-- `StudentManager.get_students_by_faculty`. -/
def get_students_by_faculty (db : DB) (faculty : Str) : List Student :=
  db.students.filter (fun s => s.faculty == faculty)

/-- `StudentManager.get_unique_courses` (`SELECT DISTINCT`, first occurrence
kept in row order). -/
def get_unique_courses (db : DB) : List Str :=
  (db.students.map Student.course).eraseDups

/-- `StudentManager.get_average_score_by_faculty`: the SQL `AVG` over the
faculty's scores; `result if result else 0.0` yields `0.0` when the faculty
has no rows (and leaves a zero average unchanged). -/
def get_average_score_by_faculty (db : DB) (faculty : Str) : ℚ :=
  let scores := (get_students_by_faculty db faculty).map Student.score
  if scores.length = 0 then 0 else (scores.sum : ℚ) / (scores.length : ℚ)

/-- `StudentManager.get_low_score_students_by_course`: rows of the course
with `score < threshold`. -/
def get_low_score_students_by_course (db : DB) (course : Str)
    (threshold : Int) : List Student :=
  db.students.filter (fun s => s.course == course && s.score < threshold)

/-- `StudentManager.create_student`: inserts the new row and returns it. -/
def create_student (db : DB) (p : StudentCreate) : Student × DB :=
  let student : Student :=
    { id := next_id (db.students.map Student.id)
      last_name := p.last_name
      first_name := p.first_name
      faculty := p.faculty
      course := p.course
      score := p.score }
  (student, { db with students := db.students ++ [student] })

/-- The field-wise effect of `update_student`'s kwargs loop: every key whose
value `is not None` overwrites the row's field, the rest keep their value. -/
def apply_update (s : Student) (upd : StudentUpdate) : Student :=
  { id := s.id
    last_name := upd.last_name.getD s.last_name
    first_name := upd.first_name.getD s.first_name
    faculty := upd.faculty.getD s.faculty
    course := upd.course.getD s.course
    score := upd.score.getD s.score }

/-- `StudentManager.update_student`: `None` when the id is absent, otherwise
updates the found row in place and returns the updated row. -/
def update_student (db : DB) (student_id : Nat) (upd : StudentUpdate) :
    Option Student × DB :=
  match db.students.find? (fun s => s.id == student_id) with
  | none => (none, db)
  | some student =>
    (some (apply_update student upd),
     { db with students := db.students.map (fun s =>
         if s.id = student.id then apply_update s upd else s) })

/-- `StudentManager.delete_student`: `False` when the id is absent, otherwise
removes the row. -/
def delete_student (db : DB) (student_id : Nat) : Bool × DB :=
  match db.students.find? (fun s => s.id == student_id) with
  | none => (false, db)
  | some student =>
    (true,
     { db with students := db.students.filter (fun s => !(s.id == student.id)) })

/-- The serialized values the cache stores: the source stores JSON lists of
dictionaries; the embedding keeps each endpoint's payload typed.  (The
unique-courses endpoint stores `[⟨"course": c⟩]` wrappers; the embedding
keeps the bare course-name list, which carries the same data.) -/
inductive CacheVal where
  | students (rows : List Student)
  | courses (names : List Str)
  | faculty_avg (faculty : Str) (average_score : ℚ)
deriving DecidableEq

/-- The Redis keyspace: keys to stored values.  The TTL (entries expire after
3600 s) is not modelled: an entry is present until overwritten or
invalidated, the adversarial case for staleness. -/
abbrev Cache := List (Str × CacheVal)

/-- `CacheManager.get` (with Redis available): the stored value, if any. -/
def cache_get (cache : Cache) (key : Str) : Option CacheVal :=
  (cache.find? (fun kv => kv.1 == key)).map Prod.snd

/-- `CacheManager.set` (Redis `SETEX`): overwrites the key. -/
def cache_set (cache : Cache) (key : Str) (value : CacheVal) : Cache :=
  (key, value) :: cache.filter (fun kv => !(kv.1 == key))

/-- `CacheManager.invalidate_pattern`: the only pattern the source ever
passes is `"cache:students*"`, a literal prefix followed by the glob `*`;
`pre` is that literal prefix, and every key starting with it is deleted. -/
def invalidate_pattern (pre : Str) (cache : Cache) : Cache :=
  cache.filter (fun kv => !(List.isPrefixOf pre kv.1))

/-- The literal prefix of the `"cache:students*"` invalidation pattern. -/
def studentsPattern : Str := str "cache:students"

/-- `CacheManager.make_cache_key`: `"cache:{endpoint}"`, with
`":{hash(json.dumps(params, sort_keys=True))}"` appended when params are
given.  The embedding appends the serialized params themselves, an injective
stand-in for Python's `hash`. -/
def make_cache_key (endpoint : Str) (params : Option Str) : Str :=
  match params with
  | some p => str "cache:" ++ endpoint ++ ':' :: p
  | none => str "cache:" ++ endpoint

/-- The whole service state: the database plus the Redis keyspace. -/
structure AppState where
  db : DB
  cache : Cache
deriving DecidableEq

/-- The HTTP error responses the handlers raise: 401, 403, 404,
400 duplicate-user, 400 bad request. -/
inductive ApiError where
  | unauthenticated
  | forbidden
  | notFound
  | conflict
  | badRequest
deriving DecidableEq

/-- True exactly on a non-error endpoint outcome. -/
def isOk {α : Type} : Except ApiError α → Bool
  | .ok _ => true
  | .error _ => false

instance {ε α : Type} [DecidableEq ε] [DecidableEq α] :
    DecidableEq (Except ε α) := fun x y =>
  match x, y with
  | .ok a, .ok b =>
    if h : a = b then .isTrue (by rw [h]) else .isFalse (by simp [h])
  | .error a, .error b =>
    if h : a = b then .isTrue (by rw [h]) else .isFalse (by simp [h])
  | .ok _, .error _ => .isFalse (by simp)
  | .error _, .ok _ => .isFalse (by simp)

/-- `POST /auth/register`: 400 Conflict when `register_user` signals a
duplicate. -/
def ep_register (digest : Str → Nat) (st : AppState) (now seed : Nat)
    (username email password : Str) (is_read_only : Bool) :
    Except ApiError UserPublic × AppState :=
  match register_user digest st.db now seed username email password
      is_read_only with
  | (none, db2) => (.error .conflict, { st with db := db2 })
  | (some u, db2) => (.ok u, { st with db := db2 })

/-- `POST /auth/login`: 401 (`"Invalid username or password"`) whenever
`login_user` fails, whichever of the three reasons applied. -/
def ep_login (digest : Str → Nat) (st : AppState) (now : Nat)
    (username password : Str) (access_token refresh_token : Str) :
    Except ApiError TokenPair × AppState :=
  match login_user digest st.db now username password access_token
      refresh_token with
  | (none, db2) => (.error .unauthenticated, { st with db := db2 })
  | (some t, db2) => (.ok t, { st with db := db2 })

/-- `POST /auth/refresh`: 401 when `refresh_token_user` fails. -/
def ep_refresh (st : AppState) (now : Nat)
    (refresh_token new_access new_refresh : Str) :
    Except ApiError TokenPair × AppState :=
  match refresh_token_user st.db now refresh_token new_access new_refresh with
  | (none, db2) => (.error .unauthenticated, { st with db := db2 })
  | (some t, db2) => (.ok t, { st with db := db2 })

/-- `GET /students`: bearer auth, then read-through cache under
`cache:students:all`. -/
def ep_get_all_students (st : AppState) (now : Nat) (tok : Str) :
    Except ApiError (List Student) × AppState :=
  match verify_token st.db now tok with
  | none => (.error .unauthenticated, st)
  | some _ =>
    let key := make_cache_key (str "students:all") none
    match cache_get st.cache key with
    | some (.students rows) => (.ok rows, st)
    | _ =>
      let result := get_all_students st.db
      (.ok result,
       { st with cache := cache_set st.cache key (.students result) })

/-- `GET /students/{id}`: bearer auth, cache under `cache:students:by_id:…`;
a cached non-empty list answers with its head, otherwise the row is fetched
(404 when absent) and cached as a one-element list. -/
def ep_get_student (st : AppState) (now : Nat) (tok : Str)
    (student_id : Nat) : Except ApiError Student × AppState :=
  match verify_token st.db now tok with
  | none => (.error .unauthenticated, st)
  | some _ =>
    let key := make_cache_key (str "students:by_id") (some (toHex student_id))
    match cache_get st.cache key with
    | some (.students (s :: _)) => (.ok s, st)
    | _ =>
      match get_student_by_id st.db student_id with
      | none => (.error .notFound, st)
      | some s =>
        (.ok s, { st with cache := cache_set st.cache key (.students [s]) })

/-- `GET /students/faculty/{faculty}`: bearer auth, cache under
`cache:students:by_faculty:…`. -/
def ep_get_students_by_faculty (st : AppState) (now : Nat) (tok : Str)
    (faculty : Str) : Except ApiError (List Student) × AppState :=
  match verify_token st.db now tok with
  | none => (.error .unauthenticated, st)
  | some _ =>
    let key := make_cache_key (str "students:by_faculty") (some faculty)
    match cache_get st.cache key with
    | some (.students rows) => (.ok rows, st)
    | _ =>
      let result := get_students_by_faculty st.db faculty
      (.ok result,
       { st with cache := cache_set st.cache key (.students result) })

/-- `GET /courses/unique`: bearer auth, cache under `cache:courses:unique` —
a key the `cache:students*` invalidation pattern does not match. -/
def ep_get_unique_courses (st : AppState) (now : Nat) (tok : Str) :
    Except ApiError (List Str) × AppState :=
  match verify_token st.db now tok with
  | none => (.error .unauthenticated, st)
  | some _ =>
    let key := make_cache_key (str "courses:unique") none
    match cache_get st.cache key with
    | some (.courses names) => (.ok names, st)
    | _ =>
      let result := get_unique_courses st.db
      (.ok result,
       { st with cache := cache_set st.cache key (.courses result) })

/-- `GET /faculty/{faculty}/average-score`: bearer auth, cache under
`cache:faculty:avg_score:…` — also outside the `cache:students*` pattern. -/
def ep_get_average_score (st : AppState) (now : Nat) (tok : Str)
    (faculty : Str) : Except ApiError (Str × ℚ) × AppState :=
  match verify_token st.db now tok with
  | none => (.error .unauthenticated, st)
  | some _ =>
    let key := make_cache_key (str "faculty:avg_score") (some faculty)
    match cache_get st.cache key with
    | some (.faculty_avg f q) => (.ok (f, q), st)
    | _ =>
      let avg := get_average_score_by_faculty st.db faculty
      (.ok (faculty, avg),
       { st with cache := cache_set st.cache key (.faculty_avg faculty avg) })

/-- `GET /courses/{course}/low-scores`: bearer auth, cache under
`cache:students:low_scores:…` (threshold defaults to 30 at the HTTP layer;
here it is always explicit). -/
def ep_get_low_score_students (st : AppState) (now : Nat) (tok : Str)
    (course : Str) (threshold : Int) :
    Except ApiError (List Student) × AppState :=
  match verify_token st.db now tok with
  | none => (.error .unauthenticated, st)
  | some _ =>
    let key := make_cache_key (str "students:low_scores")
      (some (course ++ ':' ::
        (if threshold < 0 then '-' :: toHex threshold.natAbs
         else toHex threshold.natAbs)))
    match cache_get st.cache key with
    | some (.students rows) => (.ok rows, st)
    | _ =>
      let result := get_low_score_students_by_course st.db course threshold
      (.ok result,
       { st with cache := cache_set st.cache key (.students result) })

/-- `POST /students`: `check_read_only` (401 if the token fails
`verify_token`, 403 if the user is read-only), then create and invalidate
`cache:students*`. -/
def ep_create_student (st : AppState) (now : Nat) (tok : Str)
    (p : StudentCreate) : Except ApiError Student × AppState :=
  match verify_token st.db now tok with
  | none => (.error .unauthenticated, st)
  | some user =>
    if user.is_read_only then (.error .forbidden, st)
    else
      let (s, db2) := create_student st.db p
      (.ok s,
       { db := db2, cache := invalidate_pattern studentsPattern st.cache })

/-- `PUT /students/{id}`: `check_read_only`, then update; 404 (raised before
any invalidation) when the id is absent, otherwise invalidate
`cache:students*`. -/
def ep_update_student (st : AppState) (now : Nat) (tok : Str)
    (student_id : Nat) (upd : StudentUpdate) :
    Except ApiError Student × AppState :=
  match verify_token st.db now tok with
  | none => (.error .unauthenticated, st)
  | some user =>
    if user.is_read_only then (.error .forbidden, st)
    else
      match update_student st.db student_id upd with
      | (none, _) => (.error .notFound, st)
      | (some s, db2) =>
        (.ok s,
         { db := db2, cache := invalidate_pattern studentsPattern st.cache })

/-- `DELETE /students/{id}`: `check_read_only`, then delete; 404 (before any
invalidation) when absent, otherwise invalidate `cache:students*`. -/
def ep_delete_student (st : AppState) (now : Nat) (tok : Str)
    (student_id : Nat) : Except ApiError Unit × AppState :=
  match verify_token st.db now tok with
  | none => (.error .unauthenticated, st)
  | some user =>
    if user.is_read_only then (.error .forbidden, st)
    else
      match delete_student st.db student_id with
      | (false, _) => (.error .notFound, st)
      | (true, db2) =>
        (.ok (),
         { db := db2, cache := invalidate_pattern studentsPattern st.cache })

/-- The body of `populate_from_csv`'s row loop: insert each parsed row in
order (ids assigned as on single inserts). -/
def insert_rows (db : DB) : List StudentCreate → DB
  | [] => db
  | p :: rest => insert_rows (create_student db p).2 rest

/-- `StudentManager.populate_from_csv_background` on an already-parsed,
well-formed file (CSV decoding and file IO are outside the model): inserts
every row, commits, then invalidates `cache:students*`; returns the imported
count. -/
def populate_from_csv_background (st : AppState) (rows : List StudentCreate) :
    Nat × AppState :=
  (rows.length,
   { db := insert_rows st.db rows
     cache := invalidate_pattern studentsPattern st.cache })

/-- `StudentManager.delete_students_by_ids`: deletes each listed id that
exists, commits, then invalidates `cache:students*` (even when nothing was
deleted); returns the deleted count. -/
def delete_students_by_ids (st : AppState) (ids : List Nat) :
    Nat × AppState :=
  let r := ids.foldl
    (fun acc i =>
      let d := delete_student acc.1 i
      if d.1 then (d.2, acc.2 + 1) else acc)
    (st.db, 0)
  (r.2, { db := r.1, cache := invalidate_pattern studentsPattern st.cache })

/-- `POST /students/import-csv`: `check_read_only`, then the handler replies
"processing" and schedules `populate_from_csv_background`; in this
single-worker sequential model the background task completes before the next
request is served, so the endpoint's state transition includes it. -/
def ep_import_csv (st : AppState) (now : Nat) (tok : Str)
    (rows : List StudentCreate) : Except ApiError Unit × AppState :=
  match verify_token st.db now tok with
  | none => (.error .unauthenticated, st)
  | some user =>
    if user.is_read_only then (.error .forbidden, st)
    else (.ok (), (populate_from_csv_background st rows).2)

/-- `POST /students/bulk-delete`: `check_read_only`, 400 on an empty id list,
otherwise schedules `delete_students_by_ids` (sequentialized as above). -/
def ep_bulk_delete (st : AppState) (now : Nat) (tok : Str)
    (ids : List Nat) : Except ApiError Unit × AppState :=
  match verify_token st.db now tok with
  | none => (.error .unauthenticated, st)
  | some user =>
    if user.is_read_only then (.error .forbidden, st)
    else if ids.isEmpty then (.error .badRequest, st)
    else (.ok (), (delete_students_by_ids st ids).2)

/-- The five mutating student calls, by payload. -/
inductive SMutation where
  | create (p : StudentCreate)
  | update (student_id : Nat) (upd : StudentUpdate)
  | delete (student_id : Nat)
  | importCsv (rows : List StudentCreate)
  | bulkDelete (ids : List Nat)
deriving DecidableEq

/-- Dispatch a mutating student call to its endpoint; the Boolean records
whether the call succeeded (replied 200). -/
def run_mutation (st : AppState) (now : Nat) (tok : Str) :
    SMutation → Bool × AppState
  | .create p =>
    let (r, st2) := ep_create_student st now tok p; (isOk r, st2)
  | .update i u =>
    let (r, st2) := ep_update_student st now tok i u; (isOk r, st2)
  | .delete i =>
    let (r, st2) := ep_delete_student st now tok i; (isOk r, st2)
  | .importCsv rows =>
    let (r, st2) := ep_import_csv st now tok rows; (isOk r, st2)
  | .bulkDelete ids =>
    let (r, st2) := ep_bulk_delete st now tok ids; (isOk r, st2)

/-- The session-validity formula in the specification's words ("a Session is
valid iff `is_active == true AND now < expires_at`"), written down for
comparison against what `verify_token` actually enforces. -/
def spec_session_valid (now : Nat) (s : Session) : Bool :=
  s.is_active && decide (now < s.expires_at)

/-- A concrete stand-in for the SHA-256 digest integer, used by the example
states below. -/
def exDigest (s : Str) : Nat := (s.map Char.toNat).sum

/-- Example user: active, writable. -/
def uAlice : User :=
  { id := 1, username := str "alice", email := str "alice@x.org"
    password_hash := hash_password exDigest 7 (str "pw1")
    is_read_only := false, is_active := true, created_at := 0 }

/-- Example user: deactivated. -/
def uBob : User :=
  { id := 2, username := str "bob", email := str "bob@x.org"
    password_hash := hash_password exDigest 8 (str "pw2")
    is_read_only := false, is_active := false, created_at := 0 }

/-- Example user: active but read-only. -/
def uRo : User :=
  { id := 3, username := str "ro", email := str "ro@x.org"
    password_hash := hash_password exDigest 9 (str "pw3")
    is_read_only := true, is_active := true, created_at := 0 }

/-- Alice's live session (expires at 100). -/
def sAlice : Session :=
  { id := 1, user_id := 1, token := str "tokA", refresh_token := str "refA"
    created_at := 0, expires_at := 100, is_active := true }

/-- The read-only user's live session. -/
def sRo : Session :=
  { id := 2, user_id := 3, token := str "tokR", refresh_token := str "refR"
    created_at := 0, expires_at := 100, is_active := true }

/-- A logged-out (deactivated) session of Alice's. -/
def sOld : Session :=
  { id := 3, user_id := 1, token := str "tokOld"
    refresh_token := str "refOld", created_at := 0, expires_at := 100
    is_active := false }

/-- An expired but still-active session of Alice's (expired once `now > 2`). -/
def sExp : Session :=
  { id := 4, user_id := 1, token := str "tokE", refresh_token := str "refE"
    created_at := 0, expires_at := 2, is_active := true }

/-- An example student row. -/
def st1 : Student :=
  { id := 1, last_name := str "Ivanov", first_name := str "Ivan"
    faculty := str "F1", course := str "A", score := 95 }

/-- The example database behind the witnesses below. -/
def exDB : DB :=
  { students := [st1]
    users := [uAlice, uBob, uRo]
    sessions := [sAlice, sRo, sOld, sExp] }

/-- The example service state: the example database with an empty cache. -/
def exSt : AppState := { db := exDB, cache := [] }

/-- A student-creation payload with a course not yet in the database. -/
def pNew : StudentCreate :=
  { last_name := str "Petrov", first_name := str "Petr"
    faculty := str "F2", course := str "B", score := 40 }

/-- Intermediate state of the stale-cache run: the unique-courses read has
populated `cache:courses:unique`. -/
def staleSt1 : AppState := (ep_get_unique_courses exSt 5 (str "tokA")).2

/-- Final state of the stale-cache run: a student with a new course has been
created (invalidating only `cache:students*`). -/
def staleSt2 : AppState :=
  (ep_create_student staleSt1 5 (str "tokA") pNew).2

/-- The example state right after a successful create mutation (used to
witness the freshness of the students-namespace reads). -/
def createdSt : AppState :=
  (run_mutation exSt 5 (str "tokA") (SMutation.create pNew)).2

theorem splitOnChar_ne_nil (sep : Char) (s : Str) : splitOnChar sep s ≠ [] := by
  cases s with
  | nil => simp [splitOnChar]
  | cons c rest =>
    unfold splitOnChar
    cases h : splitOnChar sep rest with
    | nil => simp
    | cons g gs =>
      by_cases hc : c = sep <;> simp [hc]

theorem splitOnChar_of_not_mem (sep : Char) (s : Str)
    (h : ∀ c ∈ s, c ≠ sep) : splitOnChar sep s = [s] := by
  induction s with
  | nil => rfl
  | cons c rest ih =>
    have hc : c ≠ sep := h c (List.mem_cons_self c rest)
    have hrest : splitOnChar sep rest = [rest] :=
      ih (fun d hd => h d (List.mem_cons_of_mem c hd))
    unfold splitOnChar
    rw [hrest]
    simp [hc]

theorem splitOnChar_append (sep : Char) (a b : Str)
    (h : ∀ c ∈ a, c ≠ sep) :
    splitOnChar sep (a ++ sep :: b) = a :: splitOnChar sep b := by
  induction a with
  | nil =>
    cases hb : splitOnChar sep b with
    | nil => exact absurd hb (splitOnChar_ne_nil sep b)
    | cons g gs => simp [splitOnChar, hb]
  | cons c rest ih =>
    have hc : c ≠ sep := h c (List.mem_cons_self c rest)
    have hrest := ih (fun d hd => h d (List.mem_cons_of_mem c hd))
    simp [splitOnChar, hrest, hc]

theorem length_splitOnChar (sep : Char) (s : Str) :
    (splitOnChar sep s).length = s.count sep + 1 := by
  induction s with
  | nil => simp [splitOnChar]
  | cons c rest ih =>
    cases h : splitOnChar sep rest with
    | nil => exact absurd h (splitOnChar_ne_nil sep rest)
    | cons g gs =>
      rw [h] at ih
      by_cases hc : c = sep
      · subst hc
        simp [splitOnChar, h, List.count_cons] at ih ⊢
        omega
      · have hcs : ¬sep = c := fun hh => hc hh.symm
        simp [splitOnChar, h, hc, hcs, List.count_cons] at ih ⊢
        omega

theorem hexChar_ne_colon (n : Nat) : hexChar n ≠ ':' := by
  unfold hexChar
  rcases Nat.lt_or_ge n 16 with h | h
  · interval_cases n <;> decide
  · rw [List.getD_eq_default]
    · decide
    · simpa [str] using h

theorem toHexAux_colon_free (fuel : Nat) :
    ∀ n acc, (∀ c ∈ acc, c ≠ ':') → ∀ c ∈ toHexAux fuel n acc, c ≠ ':' := by
  induction fuel with
  | zero =>
    intro n acc hacc c hc
    cases n <;> exact hacc c hc
  | succ fuel ih =>
    intro n acc hacc c hc
    cases n with
    | zero => exact hacc c hc
    | succ m =>
      refine ih ((m + 1) / 16) _ ?_ c hc
      intro d hd
      rcases List.mem_cons.mp hd with rfl | hd2
      · exact hexChar_ne_colon _
      · exact hacc d hd2

theorem toHex_colon_free (n : Nat) : ∀ c ∈ toHex n, c ≠ ':' := by
  unfold toHex
  by_cases h : n = 0
  · simp [h]
  · rw [if_neg h]
    exact toHexAux_colon_free n n [] (by simp)

/-- `List.find?` finds `a` whenever `a` is in the list, satisfies the
predicate, and is the only member that does. -/
theorem find_eq_some_of_unique {α : Type} (p : α → Bool) (l : List α)
    (a : α) (ha : a ∈ l) (hpa : p a = true)
    (hu : ∀ x ∈ l, p x = true → x = a) : l.find? p = some a := by
  induction l with
  | nil => cases ha
  | cons b rest ih =>
    by_cases hb : p b = true
    · have : b = a := hu b (List.mem_cons_self b rest) hb
      subst this
      simp [List.find?, hb]
    · have hba : a ≠ b := fun h => hb (h ▸ hpa)
      have ha' : a ∈ rest := by
        rcases List.mem_cons.mp ha with h | h
        · exact absurd h.symm (fun h => hba h.symm)
        · exact h
      rw [List.find?_cons_of_neg _ (by simpa using hb)]
      exact ih ha' (fun x hx hpx => hu x (List.mem_cons_of_mem b hx) hpx)

/-- C8: password round-trip — for every password (and every digest function
and salt randomness), `verify_password password (hash_password password)`
returns `true`: `hash_password` produces a `salt:hash` string whose split on
`:` recovers the hex salt and hex hash, and recomputing the digest of
`password ++ salt` reconstructs the match. -/
theorem password_roundtrip (digest : Str → Nat) (seed : Nat) (pw : Str) :
    verify_password digest pw (hash_password digest seed pw) = true := by
  have hsalt : ∀ c ∈ token_hex 16 seed, c ≠ ':' := toHex_colon_free _
  have hdig : ∀ c ∈ hexdigest digest (pw ++ token_hex 16 seed), c ≠ ':' :=
    toHex_colon_free _
  unfold verify_password hash_password
  rw [splitOnChar_append ':' _ _ hsalt, splitOnChar_of_not_mem ':' _ hdig]
  simp

/-- C9: for every password and every malformed stored hash (any string whose
number of `:` separators is not exactly one, so that the two-way split
fails), `verify_password` returns `false`; totality of the Lean function is
the embedding of "never raises" (the source's bare `except` catches the
unpacking error). -/
theorem verify_password_malformed (digest : Str → Nat) (pw s : Str)
    (h : s.count ':' ≠ 1) : verify_password digest pw s = false := by
  have hl := length_splitOnChar ':' s
  unfold verify_password
  cases hsp : splitOnChar ':' s with
  | nil => simp
  | cons a t =>
    cases t with
    | nil => simp
    | cons b t2 =>
      cases t2 with
      | nil =>
        exfalso
        rw [hsp] at hl
        simp at hl
        omega
      | cons d t3 => simp

/-- Witness for C9: a stored hash with no colon and one with two colons both
verify as `false`. -/
theorem verify_password_malformed_witness :
    verify_password (fun _ => 0) [] (str "ab") = false ∧
    verify_password (fun _ => 0) [] (str "a:b:c") = false :=
  ⟨verify_password_malformed (fun _ => 0) [] (str "ab") (by decide),
   verify_password_malformed (fun _ => 0) [] (str "a:b:c") (by decide)⟩

theorem session_find_by_token (db : DB) (hwf : WF db) (s : Session)
    (hs : s ∈ db.sessions) (hact : s.is_active = true) :
    db.sessions.find? (fun x => x.token == s.token && x.is_active) = some s := by
  refine find_eq_some_of_unique _ _ s hs (by simp [hact]) ?_
  intro x hx hpx
  simp only [Bool.and_eq_true, beq_iff_eq] at hpx
  exact List.inj_on_of_nodup_map hwf.2.2.2.2.2.1 hx hs hpx.1

theorem session_find_by_token_none (db : DB) (hwf : WF db) (s : Session)
    (hs : s ∈ db.sessions) (hact : s.is_active = false) :
    db.sessions.find? (fun x => x.token == s.token && x.is_active) = none := by
  rw [List.find?_eq_none]
  intro x hx hpx
  simp only [Bool.and_eq_true, beq_iff_eq] at hpx
  have := List.inj_on_of_nodup_map hwf.2.2.2.2.2.1 hx hs hpx.1
  rw [this, hact] at hpx
  exact Bool.false_ne_true hpx.2

theorem session_find_by_rtoken (db : DB) (hwf : WF db) (s : Session)
    (hs : s ∈ db.sessions) (hact : s.is_active = true) :
    db.sessions.find?
      (fun x => x.refresh_token == s.refresh_token && x.is_active) = some s := by
  refine find_eq_some_of_unique _ _ s hs (by simp [hact]) ?_
  intro x hx hpx
  simp only [Bool.and_eq_true, beq_iff_eq] at hpx
  exact List.inj_on_of_nodup_map hwf.2.2.2.2.2.2 hx hs hpx.1

theorem user_find_by_id (db : DB) (hwf : WF db) (u : User)
    (hu : u ∈ db.users) :
    db.users.find? (fun x => x.id == u.id) = some u := by
  refine find_eq_some_of_unique _ _ u hu (by simp) ?_
  intro x hx hpx
  simp only [beq_iff_eq] at hpx
  exact List.inj_on_of_nodup_map hwf.2.1 hx hu hpx

theorem user_find_by_username (db : DB) (hwf : WF db) (u : User)
    (hu : u ∈ db.users) :
    db.users.find? (fun x => x.username == u.username) = some u := by
  refine find_eq_some_of_unique _ _ u hu (by simp) ?_
  intro x hx hpx
  simp only [beq_iff_eq] at hpx
  exact List.inj_on_of_nodup_map hwf.2.2.1 hx hu hpx

/-- C2 (amended): for every well-formed state, every session row and its
owning user, `verify_token` authenticates — returning the owning user's
context — if and only if the session is active, `now ≤ expires_at` (the code
rejects only `expires_at < now`, so the boundary instant `now = expires_at`
still authenticates, unlike the claim's strict `now < expires_at`), and the
owning user is active; on any invalid session it returns `none`
(Unauthenticated) even though the row is still present. -/
theorem verify_token_iff (db : DB) (hwf : WF db) (now : Nat) (s : Session)
    (hs : s ∈ db.sessions) (u : User) (hu : u ∈ db.users)
    (hid : u.id = s.user_id) :
    verify_token db now s.token =
      (if s.is_active = true ∧ now ≤ s.expires_at ∧ u.is_active = true then
        some { user_id := u.id, username := u.username,
               is_read_only := u.is_read_only, is_active := u.is_active }
       else none) := by
  unfold verify_token
  by_cases hact : s.is_active = true
  · rw [session_find_by_token db hwf s hs hact]
    by_cases hexp : s.expires_at < now
    · have : ¬ now ≤ s.expires_at := by omega
      simp [hexp, hact, this]
    · have hle : now ≤ s.expires_at := by omega
      have hfu : db.users.find? (fun x => x.id == s.user_id) = some u := by
        rw [← hid]; exact user_find_by_id db hwf u hu
      by_cases huact : u.is_active = true
      · simp [hexp, hfu, huact, hact, hle]
      · simp [hexp, hfu, huact, hact, hle]
  · have hact' : s.is_active = false := by simpa using hact
    rw [session_find_by_token_none db hwf s hs hact']
    simp [hact']

/-- Witness for C2 (amended): the live example session authenticates as
Alice at `now = 5`. -/
theorem verify_token_iff_witness :
    verify_token exDB 5 sAlice.token =
      (if sAlice.is_active = true ∧ 5 ≤ sAlice.expires_at ∧
          uAlice.is_active = true then
        some { user_id := uAlice.id, username := uAlice.username,
               is_read_only := uAlice.is_read_only,
               is_active := uAlice.is_active }
       else none) :=
  verify_token_iff exDB (by decide) 5 sAlice (by decide) uAlice (by decide)
    (by decide)

/-- Counterexample for C2 as stated: at `now = 100` the session `sAlice`
(`expires_at = 100`, active, active owner) is invalid under the claim's
formula `now < expires_at`, yet `verify_token` authenticates it and returns
the owner's context. -/
theorem verify_token_boundary_cex :
    sAlice ∈ exDB.sessions ∧
    spec_session_valid 100 sAlice = false ∧
    verify_token exDB 100 sAlice.token =
      some { user_id := 1, username := str "alice", is_read_only := false,
             is_active := true } := by
  decide

theorem verify_token_none_of_no_token (db : DB) (now : Nat) (tok : Str)
    (h : ∀ x ∈ db.sessions, ¬(x.token = tok ∧ x.is_active = true)) :
    verify_token db now tok = none := by
  unfold verify_token
  have hf : db.sessions.find? (fun x => x.token == tok && x.is_active)
      = none := by
    rw [List.find?_eq_none]
    intro x hx
    simp only [Bool.and_eq_true, beq_iff_eq, not_and]
    intro h1 h2
    exact (h x hx) ⟨h1, h2⟩
  rw [hf]

theorem refresh_none_of_no_rtoken (db : DB) (now : Nat) (rt nA nR : Str)
    (h : ∀ x ∈ db.sessions, ¬(x.refresh_token = rt ∧ x.is_active = true)) :
    refresh_token_user db now rt nA nR = (none, db) := by
  unfold refresh_token_user
  have hf : db.sessions.find?
      (fun x => x.refresh_token == rt && x.is_active) = none := by
    rw [List.find?_eq_none]
    intro x hx
    simp only [Bool.and_eq_true, beq_iff_eq, not_and]
    intro h1 h2
    exact (h x hx) ⟨h1, h2⟩
  rw [hf]

/-- C3: whenever refresh succeeds (active session found by its refresh token,
active owning user, fresh replacement tokens), the rotation happens in place
on the same session row — tokens and expiry replaced, every other row and
table untouched — and afterwards the previous access token fails
`verify_token` (at every time) and the previous refresh token fails refresh:
the old pair is permanently invalid. -/
theorem refresh_rotation (db : DB) (hwf : WF db) (now : Nat) (s : Session)
    (hs : s ∈ db.sessions) (hact : s.is_active = true)
    (u : User) (hu : u ∈ db.users) (hid : u.id = s.user_id)
    (huact : u.is_active = true) (nA nR : Str)
    (hA : nA ≠ s.token) (hR : nR ≠ s.refresh_token) :
    ∃ db2,
      refresh_token_user db now s.refresh_token nA nR =
        (some { access_token := nA, refresh_token := nR, user_id := u.id,
                username := u.username, is_read_only := u.is_read_only },
         db2) ∧
      db2.students = db.students ∧ db2.users = db.users ∧
      db2.sessions = db.sessions.map (fun x =>
        if x.id = s.id then
          { x with token := nA, refresh_token := nR,
                   expires_at := now + 86400 }
        else x) ∧
      (∀ t, verify_token db2 t s.token = none) ∧
      (∀ t nA2 nR2,
        refresh_token_user db2 t s.refresh_token nA2 nR2 = (none, db2)) := by
  have hfs := session_find_by_rtoken db hwf s hs hact
  have hfu : db.users.find? (fun x => x.id == s.user_id) = some u := by
    rw [← hid]; exact user_find_by_id db hwf u hu
  refine ⟨{ db with sessions := db.sessions.map (fun x =>
      if x.id = s.id then
        { x with token := nA, refresh_token := nR,
                 expires_at := now + 86400 }
      else x) }, ?_, rfl, rfl, rfl, ?_, ?_⟩
  · simp [refresh_token_user, hfs, hfu, huact]
  · intro t
    refine verify_token_none_of_no_token _ t s.token ?_
    intro x hx
    simp only [List.mem_map] at hx
    obtain ⟨y, hy, rfl⟩ := hx
    by_cases hyid : y.id = s.id
    · simp only [if_pos hyid, not_and]
      intro htok
      exact absurd htok hA
    · simp only [if_neg hyid, not_and]
      intro htok _
      exact hyid (congrArg Session.id
        (List.inj_on_of_nodup_map hwf.2.2.2.2.2.1 hy hs htok))
  · intro t nA2 nR2
    refine refresh_none_of_no_rtoken _ t s.refresh_token nA2 nR2 ?_
    intro x hx
    simp only [List.mem_map] at hx
    obtain ⟨y, hy, rfl⟩ := hx
    by_cases hyid : y.id = s.id
    · simp only [if_pos hyid, not_and]
      intro hrt
      exact absurd hrt hR
    · simp only [if_neg hyid, not_and]
      intro hrt _
      exact hyid (congrArg Session.id
        (List.inj_on_of_nodup_map hwf.2.2.2.2.2.2 hy hs hrt))

/-- Witness for C3: rotating Alice's live session with fresh tokens
`tokN`/`refN`. -/
theorem refresh_rotation_witness :
    ∃ db2,
      refresh_token_user exDB 5 sAlice.refresh_token (str "tokN")
          (str "refN") =
        (some { access_token := str "tokN", refresh_token := str "refN",
                user_id := uAlice.id, username := uAlice.username,
                is_read_only := uAlice.is_read_only },
         db2) ∧
      db2.students = exDB.students ∧ db2.users = exDB.users ∧
      db2.sessions = exDB.sessions.map (fun x =>
        if x.id = sAlice.id then
          { x with token := str "tokN", refresh_token := str "refN",
                   expires_at := 5 + 86400 }
        else x) ∧
      (∀ t, verify_token db2 t sAlice.token = none) ∧
      (∀ t nA2 nR2,
        refresh_token_user db2 t sAlice.refresh_token nA2 nR2 =
          (none, db2)) :=
  refresh_rotation exDB (by decide) 5 sAlice (by decide) (by decide)
    uAlice (by decide) (by decide) (by decide) (str "tokN") (str "refN")
    (by decide) (by decide)

/-- C10: refresh does not check session expiry — an active session with an
active owning user refreshes successfully even when `expires_at` is already
in the past, the rotated row getting a fresh `now + 24h` expiry (so an
expired session can be revived indefinitely via its refresh token), while
the session's access token itself fails `verify_token` at that same
moment. -/
theorem refresh_ignores_expiry (db : DB) (hwf : WF db) (now : Nat)
    (s : Session) (hs : s ∈ db.sessions) (hact : s.is_active = true)
    (u : User) (hu : u ∈ db.users) (hid : u.id = s.user_id)
    (huact : u.is_active = true) (hexp : s.expires_at < now) (nA nR : Str) :
    (refresh_token_user db now s.refresh_token nA nR).1 =
      some { access_token := nA, refresh_token := nR, user_id := u.id,
             username := u.username, is_read_only := u.is_read_only } ∧
    { s with token := nA, refresh_token := nR, expires_at := now + 86400 } ∈
      (refresh_token_user db now s.refresh_token nA nR).2.sessions ∧
    verify_token db now s.token = none := by
  have hfs := session_find_by_rtoken db hwf s hs hact
  have hfu : db.users.find? (fun x => x.id == s.user_id) = some u := by
    rw [← hid]; exact user_find_by_id db hwf u hu
  refine ⟨?_, ?_, ?_⟩
  · simp [refresh_token_user, hfs, hfu, huact]
  · simp only [refresh_token_user, hfs, hfu, huact]
    simp only [Bool.not_true, if_false, Bool.false_eq_true]
    refine List.mem_map.mpr ⟨s, hs, ?_⟩
    simp
  · unfold verify_token
    rw [session_find_by_token db hwf s hs hact]
    simp [hexp]

/-- Witness for C10: Alice's expired-but-active session `sExp`
(`expires_at = 2`) refreshes at `now = 5`. -/
theorem refresh_ignores_expiry_witness :
    (refresh_token_user exDB 5 sExp.refresh_token (str "tokN2")
        (str "refN2")).1 =
      some { access_token := str "tokN2", refresh_token := str "refN2",
             user_id := uAlice.id, username := uAlice.username,
             is_read_only := uAlice.is_read_only } ∧
    { sExp with token := str "tokN2", refresh_token := str "refN2",
                expires_at := 5 + 86400 } ∈
      (refresh_token_user exDB 5 sExp.refresh_token (str "tokN2")
          (str "refN2")).2.sessions ∧
    verify_token exDB 5 sExp.token = none :=
  refresh_ignores_expiry exDB (by decide) 5 sExp (by decide) (by decide)
    uAlice (by decide) (by decide) (by decide) (by decide) (str "tokN2")
    (str "refN2")

/-- C4: the login endpoint returns the identical Unauthenticated result —
`(.error .unauthenticated, st)`, the state untouched — in all three failure
cases (user absent, user inactive, password mismatch), so the responses are
indistinguishable; with correct credentials on an active user it always
returns the token pair and records the new session. -/
theorem login_indistinguishable (digest : Str → Nat) (st : AppState)
    (hwf : WF st.db) (now : Nat) (username pw aT rT : Str) :
    ((∀ u ∈ st.db.users, u.username ≠ username) →
      ep_login digest st now username pw aT rT =
        (.error .unauthenticated, st)) ∧
    (∀ u ∈ st.db.users, u.username = username → u.is_active = false →
      ep_login digest st now username pw aT rT =
        (.error .unauthenticated, st)) ∧
    (∀ u ∈ st.db.users, u.username = username → u.is_active = true →
      verify_password digest pw u.password_hash = false →
      ep_login digest st now username pw aT rT =
        (.error .unauthenticated, st)) ∧
    (∀ u ∈ st.db.users, u.username = username → u.is_active = true →
      verify_password digest pw u.password_hash = true →
      ep_login digest st now username pw aT rT =
        (.ok { access_token := aT, refresh_token := rT, user_id := u.id,
               username := u.username, is_read_only := u.is_read_only },
         { st with db := { st.db with sessions := st.db.sessions ++
             [{ id := next_id (st.db.sessions.map Session.id),
                user_id := u.id, token := aT, refresh_token := rT,
                created_at := now, expires_at := now + 86400,
                is_active := true }] } })) := by
  refine ⟨?_, ?_, ?_, ?_⟩
  · intro h
    have hf : st.db.users.find? (fun x => x.username == username) = none := by
      rw [List.find?_eq_none]
      intro x hx
      simpa using h x hx
    simp [ep_login, login_user, hf]
  · intro u hu hun hinact
    subst hun
    have hf := user_find_by_username st.db hwf u hu
    simp [ep_login, login_user, hf, hinact]
  · intro u hu hun huact hver
    subst hun
    have hf := user_find_by_username st.db hwf u hu
    simp [ep_login, login_user, hf, huact, hver]
  · intro u hu hun huact hver
    subst hun
    have hf := user_find_by_username st.db hwf u hu
    simp [ep_login, login_user, hf, huact, hver]

/-- Witness for C4: in the example state, logging in as the absent `carol`,
the inactive `bob`, and `alice` with a wrong password all yield the same
Unauthenticated reply; `alice` with her correct password gets tokens. -/
theorem login_indistinguishable_witness :
    ep_login exDigest exSt 5 (str "carol") (str "x") (str "t1") (str "r1") =
      (.error .unauthenticated, exSt) ∧
    ep_login exDigest exSt 5 (str "bob") (str "pw2") (str "t1") (str "r1") =
      (.error .unauthenticated, exSt) ∧
    ep_login exDigest exSt 5 (str "alice") (str "bad") (str "t1")
        (str "r1") =
      (.error .unauthenticated, exSt) ∧
    ep_login exDigest exSt 5 (str "alice") (str "pw1") (str "t1")
        (str "r1") =
      (.ok { access_token := str "t1", refresh_token := str "r1",
             user_id := uAlice.id, username := uAlice.username,
             is_read_only := uAlice.is_read_only },
       { exSt with db := { exSt.db with sessions := exSt.db.sessions ++
           [{ id := next_id (exSt.db.sessions.map Session.id),
              user_id := uAlice.id, token := str "t1",
              refresh_token := str "r1", created_at := 5,
              expires_at := 5 + 86400, is_active := true }] } }) := by
  have h := login_indistinguishable exDigest exSt (by decide) 5
  refine ⟨(h (str "carol") (str "x") (str "t1") (str "r1")).1 (by decide),
    (h (str "bob") (str "pw2") (str "t1") (str "r1")).2.1 uBob (by decide)
      rfl (by decide),
    (h (str "alice") (str "bad") (str "t1") (str "r1")).2.2.1 uAlice
      (by decide) rfl (by decide) (by decide),
    (h (str "alice") (str "pw1") (str "t1") (str "r1")).2.2.2 uAlice
      (by decide) rfl (by decide) (by decide)⟩

/-- C5: whenever some stored user already has the requested username or the
requested email (the source checks both in one OR'd query), the register
endpoint replies Conflict and leaves the whole state — in particular the
user store — unchanged. -/
theorem register_conflict (digest : Str → Nat) (st : AppState)
    (now seed : Nat) (username email pw : Str) (ro : Bool) (u : User)
    (hu : u ∈ st.db.users)
    (hdup : u.username = username ∨ u.email = email) :
    ep_register digest st now seed username email pw ro =
      (.error .conflict, st) := by
  have hsome : (st.db.users.find?
      (fun x => x.username == username || x.email == email)).isSome := by
    rw [List.find?_isSome]
    exact ⟨u, hu, by rcases hdup with h | h <;> simp [h]⟩
  obtain ⟨x, hx⟩ := Option.isSome_iff_exists.mp hsome
  simp [ep_register, register_user, hx]

/-- Witness for C5: re-registering `alice`'s username (fresh email) and
re-registering her email (fresh username) both conflict and leave the state
unchanged. -/
theorem register_conflict_witness :
    ep_register exDigest exSt 9 42 (str "alice") (str "zz@x.org") (str "p")
        false = (.error .conflict, exSt) ∧
    ep_register exDigest exSt 9 42 (str "zeta") (str "alice@x.org") (str "p")
        false = (.error .conflict, exSt) :=
  ⟨register_conflict exDigest exSt 9 42 (str "alice") (str "zz@x.org")
      (str "p") false uAlice (by decide) (Or.inl (by decide)),
   register_conflict exDigest exSt 9 42 (str "zeta") (str "alice@x.org")
      (str "p") false uAlice (by decide) (Or.inr (by decide))⟩

/-- C6: for any authenticated user whose context has `is_read_only = true`,
every write endpoint (create, update, delete, CSV import, bulk delete)
replies Forbidden — a constructor distinct from Unauthenticated — for every
payload whatsoever, and the state is unchanged (the write never happens). -/
theorem read_only_guard (st : AppState) (now : Nat) (tok : Str)
    (u : AuthUser) (hauth : verify_token st.db now tok = some u)
    (hro : u.is_read_only = true) :
    (∀ p, ep_create_student st now tok p = (.error .forbidden, st)) ∧
    (∀ i upd, ep_update_student st now tok i upd =
      (.error .forbidden, st)) ∧
    (∀ i, ep_delete_student st now tok i = (.error .forbidden, st)) ∧
    (∀ rows, ep_import_csv st now tok rows = (.error .forbidden, st)) ∧
    (∀ ids, ep_bulk_delete st now tok ids = (.error .forbidden, st)) ∧
    ApiError.forbidden ≠ ApiError.unauthenticated := by
  refine ⟨?_, ?_, ?_, ?_, ?_, by decide⟩ <;>
    intros <;>
    simp [ep_create_student, ep_update_student, ep_delete_student,
      ep_import_csv, ep_bulk_delete, hauth, hro]

/-- Witness for C6: the read-only user's token `tokR` gets Forbidden from a
perfectly valid create payload and from a bulk delete. -/
theorem read_only_guard_witness :
    ep_create_student exSt 5 (str "tokR") pNew = (.error .forbidden, exSt) ∧
    ep_bulk_delete exSt 5 (str "tokR") [1] = (.error .forbidden, exSt) := by
  have h := read_only_guard exSt 5 (str "tokR")
    { user_id := 3, username := str "ro", is_read_only := true,
      is_active := true } (by decide) rfl
  exact ⟨h.1 pNew, h.2.2.2.2.1 [1]⟩

/-- C7: partial-update frame condition — updating an existing student by id
touches exactly that row (field-wise `apply_update`, every other row mapped
to itself), and `apply_update` overwrites precisely the fields provided with
non-null values: every `none` field keeps its prior value, every `some v`
field becomes `v`, and the id never changes. -/
theorem update_student_frame (db : DB) (hwf : WF db) (s : Student)
    (hs : s ∈ db.students) (upd : StudentUpdate) :
    (update_student db s.id upd).1 = some (apply_update s upd) ∧
    (update_student db s.id upd).2.students =
      db.students.map (fun x =>
        if x.id = s.id then apply_update x upd else x) ∧
    (apply_update s upd).id = s.id ∧
    (upd.last_name = none → (apply_update s upd).last_name = s.last_name) ∧
    (upd.first_name = none →
      (apply_update s upd).first_name = s.first_name) ∧
    (upd.faculty = none → (apply_update s upd).faculty = s.faculty) ∧
    (upd.course = none → (apply_update s upd).course = s.course) ∧
    (upd.score = none → (apply_update s upd).score = s.score) ∧
    (∀ v, upd.last_name = some v → (apply_update s upd).last_name = v) ∧
    (∀ v, upd.first_name = some v → (apply_update s upd).first_name = v) ∧
    (∀ v, upd.faculty = some v → (apply_update s upd).faculty = v) ∧
    (∀ v, upd.course = some v → (apply_update s upd).course = v) ∧
    (∀ v, upd.score = some v → (apply_update s upd).score = v) := by
  have hfs : db.students.find? (fun x => x.id == s.id) = some s :=
    find_eq_some_of_unique _ _ s hs (by simp)
      (fun x hx hpx =>
        List.inj_on_of_nodup_map hwf.1 hx hs (by simpa using hpx))
  refine ⟨?_, ?_, ?_, ?_, ?_, ?_, ?_, ?_, ?_, ?_, ?_, ?_, ?_⟩
  · simp [update_student, hfs]
  · simp [update_student, hfs]
  · simp [apply_update]
  all_goals intros
  all_goals simp_all [apply_update]

/-- Witness for C7: updating student 1 with only `score := 50`. -/
theorem update_student_frame_witness :
    (update_student exDB 1 { score := some 50 }).1 =
      some (apply_update st1 { score := some 50 }) ∧
    (apply_update st1 { score := some 50 }).last_name = st1.last_name ∧
    (apply_update st1 { score := some 50 }).faculty = st1.faculty ∧
    (apply_update st1 { score := some 50 }).score = 50 := by
  have h := update_student_frame exDB (by decide) st1 (by decide)
    { score := some 50 }
  exact ⟨h.1, h.2.2.2.1 rfl, h.2.2.2.2.2.1 rfl,
    h.2.2.2.2.2.2.2.2.2.2.2.2 50 rfl⟩

theorem cache_get_invalidated (c : Cache) (pre k : Str)
    (hk : List.isPrefixOf pre k = true) :
    cache_get (invalidate_pattern pre c) k = none := by
  unfold cache_get invalidate_pattern
  have hf : (c.filter (fun kv => !(List.isPrefixOf pre kv.1))).find?
      (fun kv => kv.1 == k) = none := by
    rw [List.find?_eq_none]
    intro x hx
    have hsur := List.of_mem_filter hx
    simp only [beq_iff_eq]
    intro hxk
    rw [hxk, hk] at hsur
    exact Bool.false_ne_true hsur
  rw [hf]
  rfl

theorem make_key_some_prefixed (e p b : Str)
    (hb : studentsPattern ++ b = str "cache:" ++ e) :
    List.isPrefixOf studentsPattern (make_cache_key e (some p)) = true := by
  show List.isPrefixOf studentsPattern (str "cache:" ++ e ++ ':' :: p) = true
  rw [ List.isPrefixOf_iff_prefix, ← hb, List.append_assoc]
  exact List.prefix_append _ _

/-- For every successfully answered mutating student call, the resulting
cache is some cache with the `cache:students*` pattern freshly
invalidated. -/
theorem mutation_success_cache (st : AppState) (now : Nat) (tok : Str)
    (m : SMutation) (st2 : AppState)
    (hrun : run_mutation st now tok m = (true, st2)) :
    ∃ c0, st2.cache = invalidate_pattern studentsPattern c0 := by
  cases hv : verify_token st.db now tok with
  | none =>
    exfalso
    cases m <;>
      simp [run_mutation, ep_create_student, ep_update_student,
        ep_delete_student, ep_import_csv, ep_bulk_delete, hv, isOk] at hrun
  | some u =>
    by_cases hro : u.is_read_only = true
    · exfalso
      cases m <;>
        simp [run_mutation, ep_create_student, ep_update_student,
          ep_delete_student, ep_import_csv, ep_bulk_delete, hv, hro,
          isOk] at hrun
    · cases m with
      | create p =>
        refine ⟨st.cache, ?_⟩
        simp [run_mutation, ep_create_student, create_student, hv, hro,
          isOk] at hrun
        rw [← hrun]
      | update i upd =>
        rcases hq : update_student st.db i upd with ⟨r, db2⟩
        cases r with
        | none =>
          exfalso
          simp [run_mutation, ep_update_student, hv, hro, hq, isOk] at hrun
        | some s =>
          refine ⟨st.cache, ?_⟩
          simp [run_mutation, ep_update_student, hv, hro, hq, isOk] at hrun
          rw [← hrun]
      | delete i =>
        rcases hq : delete_student st.db i with ⟨ok, db2⟩
        cases ok with
        | false =>
          exfalso
          simp [run_mutation, ep_delete_student, hv, hro, hq, isOk] at hrun
        | true =>
          refine ⟨st.cache, ?_⟩
          simp [run_mutation, ep_delete_student, hv, hro, hq, isOk] at hrun
          rw [← hrun]
      | importCsv rows =>
        refine ⟨st.cache, ?_⟩
        simp [run_mutation, ep_import_csv, populate_from_csv_background,
          hv, hro, isOk] at hrun
        rw [← hrun]
      | bulkDelete ids =>
        cases hids : ids.isEmpty with
        | true =>
          exfalso
          simp [run_mutation, ep_bulk_delete, hv, hro, hids, isOk] at hrun
        | false =>
          refine ⟨st.cache, ?_⟩
          simp [run_mutation, ep_bulk_delete, delete_students_by_ids, hv,
            hro, hids, isOk] at hrun
          rw [← hrun]

/-- C1 (amended): after any successful mutating student call (create,
update, delete, bulk CSV import, bulk delete), every subsequent read
endpoint whose cache key lies in the invalidated `cache:students*`
namespace — all-students, student-by-id, by-faculty, low-score filter —
reflects the mutation: its reply is computed from the post-mutation
database, no stale cached result surviving.  (The unique-courses and
average-score endpoints live outside that namespace and are settled by the
counterexample below.) -/
theorem students_reads_fresh_after_mutation
    (st : AppState) (now now2 : Nat) (tok tok2 : Str) (m : SMutation)
    (st2 : AppState) (hrun : run_mutation st now tok m = (true, st2))
    (u2 : AuthUser) (hauth : verify_token st2.db now2 tok2 = some u2) :
    (ep_get_all_students st2 now2 tok2).1 =
      .ok (get_all_students st2.db) ∧
    (∀ i, (ep_get_student st2 now2 tok2 i).1 =
      (match get_student_by_id st2.db i with
       | some s => .ok s
       | none => .error .notFound)) ∧
    (∀ f, (ep_get_students_by_faculty st2 now2 tok2 f).1 =
      .ok (get_students_by_faculty st2.db f)) ∧
    (∀ c t, (ep_get_low_score_students st2 now2 tok2 c t).1 =
      .ok (get_low_score_students_by_course st2.db c t)) := by
  obtain ⟨c0, hc⟩ := mutation_success_cache st now tok m st2 hrun
  have hmiss : ∀ k, List.isPrefixOf studentsPattern k = true →
      cache_get st2.cache k = none := by
    intro k hk
    rw [hc]
    exact cache_get_invalidated c0 _ k hk
  refine ⟨?_, ?_, ?_, ?_⟩
  · have h1 := hmiss (make_cache_key (str "students:all") none) (by decide)
    simp [ep_get_all_students, hauth, h1]
  · intro i
    have h1 := hmiss _ (make_key_some_prefixed (str "students:by_id")
      (toHex i) (str ":by_id") (by decide))
    cases hq : get_student_by_id st2.db i with
    | none => simp [ep_get_student, hauth, h1, hq]
    | some s => simp [ep_get_student, hauth, h1, hq]
  · intro f
    have h1 := hmiss _ (make_key_some_prefixed (str "students:by_faculty")
      f (str ":by_faculty") (by decide))
    simp [ep_get_students_by_faculty, hauth, h1]
  · intro c t
    have h1 := hmiss _ (make_key_some_prefixed (str "students:low_scores")
      (c ++ ':' :: (if t < 0 then '-' :: toHex t.natAbs
        else toHex t.natAbs))
      (str ":low_scores") (by decide))
    simp [ep_get_low_score_students, hauth, h1]

/-- Witness for C1 (amended): after creating `pNew` in the example state,
the all-students and by-faculty reads answer straight from the new
database. -/
theorem students_reads_fresh_witness :
    (ep_get_all_students createdSt 5 (str "tokA")).1 =
      .ok (get_all_students createdSt.db) ∧
    (ep_get_students_by_faculty createdSt 5 (str "tokA") (str "F2")).1 =
      .ok (get_students_by_faculty createdSt.db (str "F2")) := by
  have h := students_reads_fresh_after_mutation exSt 5 5 (str "tokA")
    (str "tokA") (SMutation.create pNew) createdSt (by decide)
    { user_id := 1, username := str "alice", is_read_only := false,
      is_active := true } (by decide)
  exact ⟨h.1, h.2.2.1 (str "F2")⟩

/-- Counterexample for C1 as stated: in the stale-cache run the
unique-courses read is first cached, then a student with the new course
`B` is successfully created — yet the subsequent unique-courses read still
serves the stale cached list `[A]`, not the database's `[A, B]`: the
`cache:students*` invalidation does not touch the `cache:courses:unique`
key. -/
theorem stale_unique_courses_cex :
    isOk (ep_create_student staleSt1 5 (str "tokA") pNew).1 = true ∧
    (ep_get_unique_courses staleSt2 5 (str "tokA")).1 = .ok [str "A"] ∧
    get_unique_courses staleSt2.db = [str "A", str "B"] ∧
    (ep_get_unique_courses staleSt2 5 (str "tokA")).1 ≠
      .ok (get_unique_courses staleSt2.db) := by
  decide

end HW12
